import Mathlib

/-!
Verification development for the selenium-starter-project repository.

The configuration resolver (`src/config_manager.py`), the browser session
wrapper (`src/browser_automation.py`) and the Google page objects
(`src/pages/google_pages.py`) are shallowly embedded below.  JSON
documents become association lists, the process environment becomes an
association list of variable names to string values, and the file system
state at construction time becomes the `FileState` inductive.
-/

/-- A JSON scalar value as stored in the settings document.  The settings
document of this project only ever holds strings, numbers and booleans
(`config_manager.py` docstring); `null` models Python `None`, the default
fallback of `ConfigManager.get`. -/
inductive JValue where
  | null : JValue
  | str (s : String) : JValue
  | num (n : Int) : JValue
  | bool (b : Bool) : JValue
deriving DecidableEq, Repr

/-- A section of the settings document: setting name to value. -/
abbrev Section := List (String × JValue)

/-- The two-level settings document: environment name to section. -/
abbrev Doc := List (String × Section)

/-- The process environment (`os.environ`): variable name to string value. -/
abbrev OsEnv := List (String × String)

/-- Python `str.upper()` as used by `ConfigManager.get` on setting keys:
uppercase every character (the keys exercised here are ASCII). -/
def pyUpper (s : String) : String := ⟨s.data.map Char.toUpper⟩

/-- The state of `ConfigManager`: the loaded settings document
(`self.config`) and the active environment (`self.environment`). -/
structure ConfigManager where
  config : Doc
  environment : String
deriving DecidableEq, Repr

/-- The hardcoded default document of `ConfigManager._load_config`. -/
def default_config : Doc :=
  [("default",
    [("base_url", JValue.str "https://www.google.com"),
     ("timeout", JValue.num 10),
     ("screenshot_on_failure", JValue.bool true),
     ("headless", JValue.bool false),
     ("browser", JValue.str "chrome")])]

/-- The file-system state of the configuration file at construction. -/
inductive FileState where
  | absent : FileState
  | malformed : FileState
  | parsed (d : Doc) : FileState
deriving DecidableEq, Repr

/-- `ConfigManager._load_config`: if the file exists and parses, its
document; if it exists but fails to parse, the error is logged and the
hardcoded default document is returned; if it is absent, the default
document is written to the path (`_create_default_config`) and returned.
The second component records the document written to disk, if any. -/
def load_config : FileState → Doc × Option Doc
  | FileState.absent => (default_config, some default_config)
  | FileState.malformed => (default_config, none)
  | FileState.parsed d => (d, none)

/-- `ConfigManager.__init__`: load the document from the file, then read
the active environment from `TEST_ENV` with fallback `"default"`.  The
second component is the document written to disk, if any. -/
def mkConfigManager (fs : FileState) (osEnv : OsEnv) : ConfigManager × Option Doc :=
  let loaded := load_config fs
  ({ config := loaded.1,
     environment := (osEnv.lookup "TEST_ENV").getD "default" }, loaded.2)

/-- `ConfigManager.get`: resolve `key` through the environment variable
`TEST_<KEY>`, then the active environment's section, then the `"default"`
section, then the caller-supplied fallback. -/
def ConfigManager.get (cm : ConfigManager) (osEnv : OsEnv) (key : String)
    (default : JValue := JValue.null) : JValue :=
  match osEnv.lookup ("TEST_" ++ pyUpper key) with
  | some v => JValue.str v
  | none =>
    match (cm.config.lookup cm.environment).bind (fun sec => sec.lookup key) with
    | some v => v
    | none =>
      match (cm.config.lookup "default").bind (fun sec => sec.lookup key) with
      | some v => v
      | none => default

/-- `ConfigManager.set_environment`: overwrite the active environment. -/
def ConfigManager.set_environment (cm : ConfigManager) (environment : String) :
    ConfigManager :=
  { cm with environment := environment }

/-- The settings document of spec §8 scenarios 7 and 8. -/
def scenarioDoc : Doc := [("default", [("timeout", JValue.num 10)]), ("dev", [])]

/-- C1: `ConfigManager.get` resolves through the four tiers in order,
returning the first hit: the `TEST_<KEY>` environment variable if set,
else the active environment's section if it contains the key, else the
`"default"` section if it contains the key, else the caller fallback;
and on the document `{"default": {"timeout": 10}, "dev": {}}` with active
environment `"dev"` and `TEST_TIMEOUT` unset, `get("timeout", 99)`
returns `10`. -/
theorem C1_get_four_tiers (cm : ConfigManager) (osEnv : OsEnv) (key : String)
    (fb : JValue) :
    (∀ v, osEnv.lookup ("TEST_" ++ pyUpper key) = some v →
      cm.get osEnv key fb = JValue.str v) ∧
    (osEnv.lookup ("TEST_" ++ pyUpper key) = none →
      ∀ v, (cm.config.lookup cm.environment).bind (fun sec => sec.lookup key) = some v →
      cm.get osEnv key fb = v) ∧
    (osEnv.lookup ("TEST_" ++ pyUpper key) = none →
      (cm.config.lookup cm.environment).bind (fun sec => sec.lookup key) = none →
      ∀ v, (cm.config.lookup "default").bind (fun sec => sec.lookup key) = some v →
      cm.get osEnv key fb = v) ∧
    (osEnv.lookup ("TEST_" ++ pyUpper key) = none →
      (cm.config.lookup cm.environment).bind (fun sec => sec.lookup key) = none →
      (cm.config.lookup "default").bind (fun sec => sec.lookup key) = none →
      cm.get osEnv key fb = fb) ∧
    (∀ osEnv2 : OsEnv, osEnv2.lookup "TEST_TIMEOUT" = none →
      ConfigManager.get ⟨scenarioDoc, "dev"⟩ osEnv2 "timeout" (JValue.num 99) =
        JValue.num 10) := by
  refine ⟨fun v hv => ?_, fun h0 v hv => ?_, fun h0 h1 v hv => ?_,
    fun h0 h1 h2 => ?_, fun osEnv2 h => ?_⟩
  · simp [ConfigManager.get, hv]
  · simp [ConfigManager.get, h0, hv]
  · simp [ConfigManager.get, h0, h1, hv]
  · simp [ConfigManager.get, h0, h1, h2]
  · have hk : ("TEST_" ++ pyUpper "timeout") = "TEST_TIMEOUT" := by decide
    simp only [ConfigManager.get, hk, h]
    decide

/-- C1 witness: the four-tier theorem applied at concrete inputs. -/
theorem C1_get_four_tiers_witness :
    ConfigManager.get ⟨scenarioDoc, "dev"⟩ [] "timeout" (JValue.num 99) =
      JValue.num 10 :=
  (C1_get_four_tiers ⟨scenarioDoc, "dev"⟩ [] "timeout" (JValue.num 99)).2.2.2.2
    [] (by decide)

/-- C2: whenever `TEST_<KEY>` is set in the process environment,
`ConfigManager.get` returns its raw string value regardless of the
document and of the fallback; on the scenario document with
`TEST_TIMEOUT=5`, `get("timeout", 99)` returns the string `"5"`. -/
theorem C2_env_var_short_circuits (osEnv : OsEnv) (key : String) :
    (∀ s, osEnv.lookup ("TEST_" ++ pyUpper key) = some s →
      ∀ cm2 : ConfigManager, ∀ fb2 : JValue,
        cm2.get osEnv key fb2 = JValue.str s) ∧
    ConfigManager.get ⟨scenarioDoc, "dev"⟩ [("TEST_TIMEOUT", "5")] "timeout"
      (JValue.num 99) = JValue.str "5" := by
  constructor
  · intro s hs cm2 fb2
    simp [ConfigManager.get, hs]
  · have hk : ("TEST_" ++ pyUpper "timeout") = "TEST_TIMEOUT" := by decide
    simp [ConfigManager.get, hk]

/-- C2 witness: the short-circuit theorem applied at concrete inputs. -/
theorem C2_env_var_short_circuits_witness :
    ConfigManager.get ⟨scenarioDoc, "dev"⟩ [("TEST_TIMEOUT", "5")] "timeout"
      (JValue.num 99) = JValue.str "5" :=
  (C2_env_var_short_circuits [("TEST_TIMEOUT", "5")] "timeout").1
    "5" (by decide) ⟨scenarioDoc, "dev"⟩ (JValue.num 99)

/-- C3: constructing from a malformed settings file never fails (the
embedding of `_load_config` is a total function), loads the hardcoded
default document, and every subsequent `get` call gives exactly the result
it would give had the hardcoded default document been loaded from a
well-formed file. -/
theorem C3_malformed_falls_back (osEnv : OsEnv) :
    (mkConfigManager FileState.malformed osEnv).1.config = default_config ∧
    (∀ key fb,
      (mkConfigManager FileState.malformed osEnv).1.get osEnv key fb =
      (mkConfigManager (FileState.parsed default_config) osEnv).1.get osEnv key fb) := by
  constructor
  · rfl
  · intro key fb
    rfl

/-- C4: with the settings file absent and `TEST_ENV` unset (and no
`TEST_BASE_URL` override in the process environment), construction yields
a manager for which `get("base_url")` returns the hardcoded
`"https://www.google.com"`, and the hardcoded default document — default
section with base_url, timeout 10, screenshot_on_failure true, headless
false, browser chrome — is written to the configured file path. -/
theorem C4_absent_file_default (osEnv : OsEnv)
    (henv : osEnv.lookup "TEST_ENV" = none)
    (hurl : osEnv.lookup "TEST_BASE_URL" = none) :
    (mkConfigManager FileState.absent osEnv).1.get osEnv "base_url" =
      JValue.str "https://www.google.com" ∧
    (mkConfigManager FileState.absent osEnv).2 = some default_config ∧
    default_config =
      [("default",
        [("base_url", JValue.str "https://www.google.com"),
         ("timeout", JValue.num 10),
         ("screenshot_on_failure", JValue.bool true),
         ("headless", JValue.bool false),
         ("browser", JValue.str "chrome")])] := by
  refine ⟨?_, rfl, rfl⟩
  have hk : ("TEST_" ++ pyUpper "base_url") = "TEST_BASE_URL" := by decide
  simp only [mkConfigManager, load_config, ConfigManager.get, hk, hurl, henv]
  decide

/-- C4 witness: the absent-file theorem applied to the empty process
environment. -/
theorem C4_absent_file_default_witness :
    (mkConfigManager FileState.absent []).1.get [] "base_url" =
      JValue.str "https://www.google.com" :=
  (C4_absent_file_default [] (by decide) (by decide)).1

/-- C5: `set_environment` is total, accepts any name without validating it
against the document, and changes only the active-environment field; and
when the active environment's section and the `"default"` section are both
absent from the document, `get` does not fail: it resolves through the
remaining tiers (environment variable, then caller fallback). -/
theorem C5_set_environment_unvalidated (cm : ConfigManager) (name : String) :
    ((cm.set_environment name).environment = name ∧
     (cm.set_environment name).config = cm.config) ∧
    (∀ osEnv : OsEnv, ∀ key fb,
      cm.config.lookup cm.environment = none →
      cm.config.lookup "default" = none →
      cm.get osEnv key fb =
        (match osEnv.lookup ("TEST_" ++ pyUpper key) with
         | some v => JValue.str v
         | none => fb)) := by
  refine ⟨⟨rfl, rfl⟩, fun osEnv key fb h1 h2 => ?_⟩
  cases hv : osEnv.lookup ("TEST_" ++ pyUpper key) with
  | some v => simp [ConfigManager.get, hv]
  | none => simp [ConfigManager.get, hv, h1, h2]

/-- C5 witness: the theorem applied to a manager whose document lacks both
the active environment and the `"default"` entry. -/
theorem C5_set_environment_unvalidated_witness :
    ((ConfigManager.set_environment ⟨[("qa", [])], "default"⟩ "nowhere").environment
      = "nowhere") ∧
    ConfigManager.get ⟨[("qa", [])], "dev"⟩ [] "timeout" (JValue.num 7) =
      JValue.num 7 := by
  refine ⟨(C5_set_environment_unvalidated ⟨[("qa", [])], "default"⟩ "nowhere").1.1, ?_⟩
  have h := (C5_set_environment_unvalidated ⟨[("qa", [])], "dev"⟩ "x").2
    [] "timeout" (JValue.num 7) (by decide) (by decide)
  simpa using h

/-- One externally visible operation on the resolver. -/
inductive Op where
  | getOp (key : String) (fb : JValue) : Op
  | setEnv (name : String) : Op
deriving DecidableEq, Repr

/-- The state transition of one operation: `get` reads state and assigns
nothing; `set_environment` overwrites the active-environment field. -/
def stepOp (cm : ConfigManager) : Op → ConfigManager
  | Op.getOp _ _ => cm
  | Op.setEnv name => cm.set_environment name

/-- Running a sequence of operations against the resolver. -/
def runOps (cm : ConfigManager) (ops : List Op) : ConfigManager :=
  ops.foldl stepOp cm

/-- C6: the settings document is immutable for the resolver's lifetime —
every sequence of `get` and `set_environment` operations leaves the
loaded document unchanged — and `get` is deterministic in the document,
the active environment and the process environment: two resolver states
agreeing on both fields give equal `get` results everywhere. -/
theorem C6_config_immutable (cm : ConfigManager) (ops : List Op) :
    (runOps cm ops).config = cm.config ∧
    (∀ cm2 : ConfigManager, cm.config = cm2.config →
      cm.environment = cm2.environment →
      ∀ osEnv : OsEnv, ∀ key fb, cm.get osEnv key fb = cm2.get osEnv key fb) := by
  constructor
  · induction ops generalizing cm with
    | nil => rfl
    | cons op rest ih =>
      cases op with
      | getOp key fb => exact ih cm
      | setEnv name => exact ih (cm.set_environment name)
  · intro cm2 hc he osEnv key fb
    simp [ConfigManager.get, hc, he]

/-- C6 witness: the immutability theorem applied to a concrete operation
sequence and a pair of equal-field resolver states. -/
theorem C6_config_immutable_witness :
    (runOps ⟨scenarioDoc, "default"⟩
      [Op.setEnv "dev", Op.getOp "timeout" JValue.null, Op.setEnv "prod"]).config
      = scenarioDoc ∧
    ConfigManager.get ⟨scenarioDoc, "default"⟩ [] "timeout" JValue.null =
      ConfigManager.get ⟨scenarioDoc, "default"⟩ [] "timeout" JValue.null := by
  have h := C6_config_immutable ⟨scenarioDoc, "default"⟩
    [Op.setEnv "dev", Op.getOp "timeout" JValue.null, Op.setEnv "prod"]
  exact ⟨h.1, h.2 ⟨scenarioDoc, "default"⟩ rfl rfl [] "timeout" JValue.null⟩

/-- Python `str.lower()` as used by `BrowserAutomation.__init__` on the
browser-type argument (the kinds compared against are ASCII). -/
def pyLower (s : String) : String := ⟨s.data.map Char.toLower⟩

/-- The closed set of browser kinds distinguished by
`BrowserAutomation.__init__`. -/
inductive Browser where
  | chrome | firefox | edge | safari
deriving DecidableEq, Repr

/-- The underlying selenium driver handle: a session that `quit` ends. -/
structure Driver where
  sessionActive : Bool
deriving DecidableEq, Repr

/-- `driver.quit()`: end the session.  Ending an already-ended session
leaves it ended. -/
def Driver.quit (d : Driver) : Driver := { d with sessionActive := false }

/-- The state of a `BrowserAutomation` object: the lowered browser type
string, the branch taken, the option arguments accumulated, and the
driver handle (`self.driver`, `None` until assigned). -/
structure BrowserAutomation where
  browser_type : String
  browser : Browser
  options : List String
  driver : Option Driver
deriving DecidableEq, Repr

/-- `BrowserAutomation.__init__`: lower the browser type, dispatch on the
string chain chrome / firefox / edge / safari building that branch's
options (headless adds `--headless` except for safari), create the
driver; any other string raises `ValueError("Unsupported browser type:
...")` with the original argument. -/
def BrowserAutomation.init (browser_type : String) (headless : Bool) :
    Except String BrowserAutomation :=
  let bt := pyLower browser_type
  if bt = "chrome" then
    Except.ok
      { browser_type := bt, browser := Browser.chrome,
        options := (if headless then ["--headless"] else []) ++
          ["--no-sandbox", "--disable-dev-shm-usage", "--disable-gpu",
           "--window-size=1920,1080"],
        driver := some { sessionActive := true } }
  else if bt = "firefox" then
    Except.ok
      { browser_type := bt, browser := Browser.firefox,
        options := if headless then ["--headless"] else [],
        driver := some { sessionActive := true } }
  else if bt = "edge" then
    Except.ok
      { browser_type := bt, browser := Browser.edge,
        options := (if headless then ["--headless"] else []) ++
          ["--no-sandbox", "--disable-dev-shm-usage", "--window-size=1920,1080"],
        driver := some { sessionActive := true } }
  else if bt = "safari" then
    Except.ok
      { browser_type := bt, browser := Browser.safari, options := [],
        driver := some { sessionActive := true } }
  else
    Except.error ("Unsupported browser type: " ++ browser_type)

/-- `BrowserAutomation.close`: `if self.driver: self.driver.quit()`.  The
handle field itself is not cleared; the session is ended. -/
def BrowserAutomation.close (w : BrowserAutomation) : BrowserAutomation :=
  match w.driver with
  | some d => { w with driver := some d.quit }
  | none => w

/-- C7: constructing `BrowserAutomation` with a kind outside the fixed set
chrome / firefox / edge / safari (compared case-insensitively, by
lowering) fails with the unsupported-browser error surfaced to the
caller, and with any kind in the set the construction takes that kind's
branch and raises no such error. -/
theorem C7_browser_kind_dispatch (bt : String) (headless : Bool) :
    ((pyLower bt ∉ (["chrome", "firefox", "edge", "safari"] : List String)) ↔
      BrowserAutomation.init bt headless =
        Except.error ("Unsupported browser type: " ++ bt)) ∧
    (pyLower bt = "chrome" →
      ∃ s, BrowserAutomation.init bt headless = Except.ok s ∧
        s.browser = Browser.chrome) ∧
    (pyLower bt = "firefox" →
      ∃ s, BrowserAutomation.init bt headless = Except.ok s ∧
        s.browser = Browser.firefox) ∧
    (pyLower bt = "edge" →
      ∃ s, BrowserAutomation.init bt headless = Except.ok s ∧
        s.browser = Browser.edge) ∧
    (pyLower bt = "safari" →
      ∃ s, BrowserAutomation.init bt headless = Except.ok s ∧
        s.browser = Browser.safari) := by
  by_cases h1 : pyLower bt = "chrome"
  · refine ⟨?_, fun _ =>
      ⟨{ browser_type := "chrome", browser := Browser.chrome,
         options := (if headless then ["--headless"] else []) ++
           ["--no-sandbox", "--disable-dev-shm-usage", "--disable-gpu",
            "--window-size=1920,1080"],
         driver := some { sessionActive := true } },
        by simp [BrowserAutomation.init, h1], rfl⟩,
      fun h => absurd (h1.symm.trans h) (by decide),
      fun h => absurd (h1.symm.trans h) (by decide),
      fun h => absurd (h1.symm.trans h) (by decide)⟩
    simp [BrowserAutomation.init, h1]
  by_cases h2 : pyLower bt = "firefox"
  · refine ⟨?_, fun h => absurd (h2.symm.trans h) (by decide),
      fun _ =>
        ⟨{ browser_type := "firefox", browser := Browser.firefox,
           options := if headless then ["--headless"] else [],
           driver := some { sessionActive := true } },
          by simp [BrowserAutomation.init, h1, h2], rfl⟩,
      fun h => absurd (h2.symm.trans h) (by decide),
      fun h => absurd (h2.symm.trans h) (by decide)⟩
    simp [BrowserAutomation.init, h1, h2]
  by_cases h3 : pyLower bt = "edge"
  · refine ⟨?_, fun h => absurd (h3.symm.trans h) (by decide),
      fun h => absurd (h3.symm.trans h) (by decide),
      fun _ =>
        ⟨{ browser_type := "edge", browser := Browser.edge,
           options := (if headless then ["--headless"] else []) ++
             ["--no-sandbox", "--disable-dev-shm-usage", "--window-size=1920,1080"],
           driver := some { sessionActive := true } },
          by simp [BrowserAutomation.init, h1, h2, h3], rfl⟩,
      fun h => absurd (h3.symm.trans h) (by decide)⟩
    simp [BrowserAutomation.init, h1, h2, h3]
  by_cases h4 : pyLower bt = "safari"
  · refine ⟨?_, fun h => absurd (h4.symm.trans h) (by decide),
      fun h => absurd (h4.symm.trans h) (by decide),
      fun h => absurd (h4.symm.trans h) (by decide),
      fun _ =>
        ⟨{ browser_type := "safari", browser := Browser.safari, options := [],
           driver := some { sessionActive := true } },
          by simp [BrowserAutomation.init, h1, h2, h3, h4], rfl⟩⟩
    simp [BrowserAutomation.init, h1, h2, h3, h4]
  · refine ⟨?_, fun h => absurd h h1, fun h => absurd h h2,
      fun h => absurd h h3, fun h => absurd h h4⟩
    simp [BrowserAutomation.init, h1, h2, h3, h4]

/-- C7 witness: the dispatch theorem applied to a mixed-case supported
kind and checked on an unsupported kind. -/
theorem C7_browser_kind_dispatch_witness :
    (∃ s, BrowserAutomation.init "Chrome" false = Except.ok s ∧
      s.browser = Browser.chrome) ∧
    BrowserAutomation.init "opera" false =
      Except.error ("Unsupported browser type: " ++ "opera") := by
  constructor
  · exact (C7_browser_kind_dispatch "Chrome" false).2.1 (by decide)
  · exact ((C7_browser_kind_dispatch "opera" false).1).mp (by decide)

/-- C8: `close` releases the underlying driver handle (the session is
ended), does nothing when no handle is held, and a second `close` after a
first leaves the wrapper in the same closed state. -/
theorem C8_close_idempotent (w : BrowserAutomation) :
    (∀ d, w.driver = some d →
      ∃ d2, (w.close).driver = some d2 ∧ d2.sessionActive = false) ∧
    (w.driver = none → w.close = w) ∧
    w.close.close = w.close := by
  refine ⟨fun d hd => ?_, fun hn => ?_, ?_⟩
  · simp [BrowserAutomation.close, hd, Driver.quit]
  · simp [BrowserAutomation.close, hn]
  · cases hd : w.driver with
    | none => simp [BrowserAutomation.close, hd]
    | some d => simp [BrowserAutomation.close, hd, Driver.quit]

/-- C8 witness: the close theorem applied to a live wrapper and to a
wrapper holding no driver. -/
theorem C8_close_idempotent_witness :
    (∃ d2,
      (BrowserAutomation.close
        ⟨"chrome", Browser.chrome, [], some ⟨true⟩⟩).driver = some d2 ∧
      d2.sessionActive = false) ∧
    BrowserAutomation.close ⟨"chrome", Browser.chrome, [], none⟩ =
      ⟨"chrome", Browser.chrome, [], none⟩ := by
  constructor
  · exact (C8_close_idempotent ⟨"chrome", Browser.chrome, [], some ⟨true⟩⟩).1
      ⟨true⟩ rfl
  · exact (C8_close_idempotent ⟨"chrome", Browser.chrome, [], none⟩).2.1 rfl

/-- Python list subscription `xs[i]` with an `int` index: a non-negative
index reads from the front, a negative index counts from the back
(`xs[-1]` is the last element), and anything outside `[-len, len)` is an
IndexError (`none`). -/
def listGetPy {α : Type} (xs : List α) (i : Int) : Option α :=
  if 0 ≤ i then xs.get? i.toNat
  else if -(xs.length : Int) ≤ i then xs.get? ((xs.length : Int) + i).toNat
  else none

/-- The observable outcome of `GoogleSearchResultsPage.click_result`:
either some result element was clicked, or an `IndexError` with the given
message was raised. -/
inductive ClickOutcome (α : Type) where
  | clicked (el : α) : ClickOutcome α
  | indexError (msg : String) : ClickOutcome α
deriving DecidableEq, Repr

/-- `GoogleSearchResultsPage.click_result`: with `results` the list of
result link elements, `if index < len(results): results[index].click()`
— where the subscription itself may raise `IndexError: list index out of
range` — `else` raise the explicit `IndexError` with the range message. -/
def click_result {α : Type} (results : List α) (index : Int) : ClickOutcome α :=
  if index < (results.length : Int) then
    match listGetPy results index with
    | some el => ClickOutcome.clicked el
    | none => ClickOutcome.indexError "list index out of range"
  else
    ClickOutcome.indexError
      ("Result index " ++ toString index ++ " out of range (0-" ++
        toString ((results.length : Int) - 1) ++ ")")

/-- C9 counterexample: index `-4` on the non-empty three-element results
list is negative, yet `click_result` raises `IndexError` (from the list
subscription), contradicting the claim that a negative index on a
non-empty list never raises. -/
theorem C9_click_result_counterexample :
    ((-4 : Int) < 0) ∧ (([0, 1, 2] : List Nat) ≠ []) ∧
    click_result ([0, 1, 2] : List Nat) (-4) =
      ClickOutcome.indexError "list index out of range" := by
  decide

/-- C9 amended: `click_result` raises `IndexError` if and only if the
index falls outside `[-len, len)`; for an in-range index it clicks the
element Python subscription selects — the element at `index` for a
non-negative index, and the element at `len + index` for a negative one
(so `-1` clicks the last result). -/
theorem C9_click_result_amended {α : Type} (results : List α) (index : Int) :
    ((results.length : Int) ≤ index ∨ index < -(results.length : Int) →
      ∃ msg, click_result results index = ClickOutcome.indexError msg) ∧
    (-(results.length : Int) ≤ index → index < (results.length : Int) →
      ∃ el, click_result results index = ClickOutcome.clicked el ∧
        (0 ≤ index → results.get? index.toNat = some el) ∧
        (index < 0 → results.get? ((results.length : Int) + index).toNat = some el)) := by
  constructor
  · intro h
    cases h with
    | inl h =>
      refine ⟨"Result index " ++ toString index ++ " out of range (0-" ++
        toString ((results.length : Int) - 1) ++ ")", ?_⟩
      simp only [click_result, if_neg (not_lt.mpr h)]
    | inr h =>
      have hlt : index < (results.length : Int) := by
        have : -(results.length : Int) ≤ (results.length : Int) := by
          have := Int.ofNat_nonneg results.length
          omega
        omega
      have h0 : ¬ 0 ≤ index := by
        have := Int.ofNat_nonneg results.length
        omega
      have hneg : ¬ -(results.length : Int) ≤ index := not_le.mpr h
      refine ⟨"list index out of range", ?_⟩
      simp only [click_result, if_pos hlt, listGetPy, if_neg h0, if_neg hneg]
  · intro hlo hhi
    by_cases h0 : 0 ≤ index
    · have hnat : index.toNat < results.length := by omega
      have hel : results.get? index.toNat = some (results.get ⟨index.toNat, hnat⟩) :=
        List.get?_eq_get hnat
      refine ⟨results.get ⟨index.toNat, hnat⟩, ?_, fun _ => hel,
        fun hc => absurd hc (not_lt.mpr h0)⟩
      simp only [click_result, if_pos hhi, listGetPy, if_pos h0, hel]
    · have hneg : index < 0 := not_le.mp h0
      have hnat : ((results.length : Int) + index).toNat < results.length := by omega
      have hel : results.get? ((results.length : Int) + index).toNat =
          some (results.get ⟨((results.length : Int) + index).toNat, hnat⟩) :=
        List.get?_eq_get hnat
      refine ⟨results.get ⟨((results.length : Int) + index).toNat, hnat⟩, ?_,
        fun hc => absurd hc h0, fun _ => hel⟩
      simp only [click_result, if_pos hhi, listGetPy, if_neg h0, if_pos hlo, hel]

/-- C9 amended witness: the amended theorem applied to a three-element
list at index `-1` (clicks the last result) and at index `3` (raises). -/
theorem C9_click_result_amended_witness :
    (∃ el, click_result ([10, 20, 30] : List Nat) (-1) = ClickOutcome.clicked el ∧
      (0 ≤ (-1 : Int) → ([10, 20, 30] : List Nat).get? (-1 : Int).toNat = some el) ∧
      ((-1 : Int) < 0 →
        ([10, 20, 30] : List Nat).get? (((3 : Nat) : Int) + -1).toNat = some el)) ∧
    (∃ msg, click_result ([10, 20, 30] : List Nat) 3 =
      ClickOutcome.indexError msg) := by
  constructor
  · exact (C9_click_result_amended ([10, 20, 30] : List Nat) (-1)).2
      (by decide) (by decide)
  · exact (C9_click_result_amended ([10, 20, 30] : List Nat) 3).1
      (Or.inl (by decide))

/-- The outcome of one element-lookup probe inside
`GoogleSearchResultsPage.is_captcha_present`: the element was found, the
lookup timed out, or the lookup failed with some other exception — the
bare `except` treats the last two alike. -/
inductive ProbeResult where
  | found | notFoundTimeout | otherError
deriving DecidableEq, Repr

/-- `GoogleSearchResultsPage.is_captcha_present`: probe for the CAPTCHA
container; if that probe finds an element return `True`; on any exception
probe for the CAPTCHA heading; if that finds an element return `True`; on
any exception return `False`. -/
def is_captcha_present (containerProbe headingProbe : ProbeResult) : Bool :=
  match containerProbe with
  | ProbeResult.found => true
  | _ =>
    match headingProbe with
    | ProbeResult.found => true
    | _ => false

/-- C10: `is_captcha_present` is total over every outcome of the two
probes — it always returns a boolean, never propagating any exception —
and it returns `true` exactly when one of the two probes finds an
element. -/
theorem C10_captcha_total (containerProbe headingProbe : ProbeResult) :
    is_captcha_present containerProbe headingProbe = true ↔
      (containerProbe = ProbeResult.found ∨ headingProbe = ProbeResult.found) := by
  cases containerProbe <;> cases headingProbe <;> simp [is_captcha_present]
